import Mathlib

/-
Verification of the token-filter and parse-driver core of parser.c
(pgpool2's borrowed PostgreSQL raw parser driver).

The embedding below transcribes:
  - the one-token-lookahead filter `filtered_base_yylex` together with the
    static variables `lookahead_token`, `have_lookahead`, `lookahead_yylval`,
    `lookahead_yylloc` and the scanner-written globals `base_yylval`,
    `base_yylloc`;
  - the driver `raw_parser` (here `rawParser`, since Lean declaration names
    ending in that suffix are avoided) with its arena init-on-first-use,
    session reset, setjmp recovery point and the explicit `base_yyparse`
    return check;
  - `free_parser` (here `freeParser`).
The scanner (`base_yylex`) is modelled as consuming a finite list of tokens,
returning the end-of-input kind once the list is exhausted (flex returns 0 at
EOF without touching yylval).  The grammar engine (`base_yyparse`, generated
code outside this file's scope) is modelled as an abstract function of the
filtered token stream.
-/

/-- Token kinds used by the filter (names from gram.h); every other token kind
produced by the scanner is `OTHER n`; `YYEOF` is the end-of-input kind 0. -/
inductive TokKind where
  | NULLS_P
  | FIRST_P
  | LAST_P
  | WITH
  | CASCADED
  | LOCAL
  | CHECK
  | NULLS_FIRST
  | NULLS_LAST
  | WITH_CASCADED
  | WITH_LOCAL
  | WITH_CHECK
  | YYEOF
  | OTHER (code : Nat)
deriving DecidableEq, Repr

/-- A scanner token: kind plus the `yylval` payload and `yylloc` location the
scanner writes into `base_yylval` / `base_yylloc` when it returns it. -/
structure Token where
  kind : TokKind
  val : Int
  loc : Int
deriving DecidableEq, Repr

/-- The mutable state visible to `filtered_base_yylex`: the remaining scanner
input, the scanner-written globals `base_yylval` / `base_yylloc`, and the four
static lookahead variables of parser.c. -/
structure FilterState where
  input : List Token
  base_yylval : Int
  base_yylloc : Int
  have_lookahead : Bool
  lookahead_token : TokKind
  lookahead_yylval : Int
  lookahead_yylloc : Int
deriving DecidableEq, Repr

/-- The scanner `base_yylex`: returns the next token's kind and writes its
value/location into `base_yylval` / `base_yylloc`; at end of input it returns
the end-of-input kind 0 (`YYEOF`) and leaves the globals untouched. -/
def base_yylex (s : FilterState) : TokKind × FilterState :=
  match s.input with
  | [] => (TokKind.YYEOF, s)
  | t :: rest =>
      (t.kind, { s with input := rest, base_yylval := t.val, base_yylloc := t.loc })

/-- The prelude of `filtered_base_yylex`: take the buffered lookahead token if
there is one (clearing the slot and restoring its recorded value/location into
the globals), otherwise pull a fresh token from the scanner. -/
def getNextToken (s : FilterState) : TokKind × FilterState :=
  if s.have_lookahead then
    (s.lookahead_token,
      { s with
          base_yylval := s.lookahead_yylval
          base_yylloc := s.lookahead_yylloc
          have_lookahead := false })
  else
    base_yylex s

/-- The switch of `filtered_base_yylex`: on a merge-trigger kind (`NULLS_P` or
`WITH`) save the current value/location, pull one more token, and either merge
(`FIRST_P`/`LAST_P` after `NULLS_P`; `CASCADED`/`LOCAL`/`CHECK` after `WITH`)
or buffer the second token into the lookahead slot and restore the saved
value/location.  Any other kind passes through unchanged. -/
def lookaheadSwitch (cur_token : TokKind) (s : FilterState) : TokKind × FilterState :=
  match cur_token with
  | TokKind.NULLS_P =>
      let cur_yylval := s.base_yylval
      let cur_yylloc := s.base_yylloc
      let n := base_yylex s
      match n.1 with
      | TokKind.FIRST_P => (TokKind.NULLS_FIRST, n.2)
      | TokKind.LAST_P => (TokKind.NULLS_LAST, n.2)
      | next_token =>
          (TokKind.NULLS_P,
            { n.2 with
                lookahead_token := next_token
                lookahead_yylval := n.2.base_yylval
                lookahead_yylloc := n.2.base_yylloc
                have_lookahead := true
                base_yylval := cur_yylval
                base_yylloc := cur_yylloc })
  | TokKind.WITH =>
      let cur_yylval := s.base_yylval
      let cur_yylloc := s.base_yylloc
      let n := base_yylex s
      match n.1 with
      | TokKind.CASCADED => (TokKind.WITH_CASCADED, n.2)
      | TokKind.LOCAL => (TokKind.WITH_LOCAL, n.2)
      | TokKind.CHECK => (TokKind.WITH_CHECK, n.2)
      | next_token =>
          (TokKind.WITH,
            { n.2 with
                lookahead_token := next_token
                lookahead_yylval := n.2.base_yylval
                lookahead_yylloc := n.2.base_yylloc
                have_lookahead := true
                base_yylval := cur_yylval
                base_yylloc := cur_yylloc })
  | k => (k, s)

/-- `filtered_base_yylex` from parser.c: fetch the next token (lookahead slot
first), then apply the multiword-merge switch. -/
def filtered_base_yylex (s : FilterState) : TokKind × FilterState :=
  let g := getNextToken s
  lookaheadSwitch g.1 g.2

/-- Run `filtered_base_yylex` `n` times, collecting the returned token kinds
(the stream the grammar engine sees) and the final filter state. -/
def runFilter (s : FilterState) : Nat → List TokKind × FilterState
  | 0 => ([], s)
  | Nat.succ n =>
      let r := filtered_base_yylex s
      let rest := runFilter r.2 n
      (r.1 :: rest.1, rest.2)

/-- The filter state at the start of a parse over scanner stream `ts`
(lookahead slot empty — `rawParser` clears `have_lookahead`). -/
def initFilter (ts : List Token) : FilterState :=
  { input := ts
    base_yylval := 0
    base_yylloc := 0
    have_lookahead := false
    lookahead_token := TokKind.YYEOF
    lookahead_yylval := 0
    lookahead_yylloc := 0 }

/-- The static merge table of the filter: trigger kind and continuation kind
to merged kind, read off the two nested switches of `filtered_base_yylex`. -/
def mergeContinuation : TokKind → TokKind → Option TokKind
  | TokKind.NULLS_P, TokKind.FIRST_P => some TokKind.NULLS_FIRST
  | TokKind.NULLS_P, TokKind.LAST_P => some TokKind.NULLS_LAST
  | TokKind.WITH, TokKind.CASCADED => some TokKind.WITH_CASCADED
  | TokKind.WITH, TokKind.LOCAL => some TokKind.WITH_LOCAL
  | TokKind.WITH, TokKind.CHECK => some TokKind.WITH_CHECK
  | _, _ => none

/-- The merge-trigger kinds: exactly the cases of the outer switch of
`filtered_base_yylex`. -/
def isTrigger : TokKind → Bool
  | TokKind.NULLS_P => true
  | TokKind.WITH => true
  | _ => false

/-- Putting the buffered lookahead token back in front of the scanner input:
draining the slot behaves exactly like reading that token fresh. -/
def pushbackLookahead (s : FilterState) : FilterState :=
  { s with
      input := ⟨s.lookahead_token, s.lookahead_yylval, s.lookahead_yylloc⟩ :: s.input
      have_lookahead := false }

/-- The tokens still owed to the grammar engine: the buffered lookahead token
(if any) followed by the unread scanner input. -/
def FilterState.pending (s : FilterState) : List Token :=
  (if s.have_lookahead then
      [⟨s.lookahead_token, s.lookahead_yylval, s.lookahead_yylloc⟩]
    else []) ++ s.input

/-- The scanner components of an emitted token kind: a merged synthetic kind
stands for the two scanner tokens fused into it, any other kind for itself. -/
def expand : TokKind → List TokKind
  | TokKind.NULLS_FIRST => [TokKind.NULLS_P, TokKind.FIRST_P]
  | TokKind.NULLS_LAST => [TokKind.NULLS_P, TokKind.LAST_P]
  | TokKind.WITH_CASCADED => [TokKind.WITH, TokKind.CASCADED]
  | TokKind.WITH_LOCAL => [TokKind.WITH, TokKind.LOCAL]
  | TokKind.WITH_CHECK => [TokKind.WITH, TokKind.CHECK]
  | k => [k]

/-- Kinds the scanner can actually produce: everything except the synthetic
merged kinds, which only the filter manufactures. -/
def scannerKind : TokKind → Bool
  | TokKind.NULLS_FIRST => false
  | TokKind.NULLS_LAST => false
  | TokKind.WITH_CASCADED => false
  | TokKind.WITH_LOCAL => false
  | TokKind.WITH_CHECK => false
  | _ => true

/-- Two filter states that present the same token kinds to the grammar: same
unread input kinds, same slot occupancy, and the same buffered kind when the
slot is full.  The value/location fields may differ arbitrarily. -/
def KindAligned (s1 s2 : FilterState) : Prop :=
  s1.input.map Token.kind = s2.input.map Token.kind
  ∧ s1.have_lookahead = s2.have_lookahead
  ∧ (s1.have_lookahead = true → s1.lookahead_token = s2.lookahead_token)

/-- The empty parse-tree list `NIL`; parse-tree nodes are opaque to this core
and modelled as numeric handles. -/
def NIL : List Nat := []

/-- The process-wide state visible to `rawParser` and `freeParser`: the
`pool_memory` handle variable, a freshness counter for arena creation, whether
the arena's memory is currently allocated, the shared `parsetree` result, the
filter/scanner state, and whether the scanner is between `scanner_init` and
`scanner_finish`. -/
structure GlobalState where
  pool_memory : Option Nat
  next_handle : Nat
  arena_alive : Bool
  parsetree : List Nat
  fs : FilterState
  scanner_active : Bool
deriving DecidableEq, Repr

/-- One run of the external grammar engine `base_yyparse` over the filtered
token stream: either a scanner/grammar error escapes through the `longjmp`
recovery point after consuming some calls' worth of tokens and possibly
writing a partial tree into `parsetree`, or the engine returns a status code
with the tree it wrote into `parsetree`. -/
inductive EngineResult where
  | jmp (consumed : Nat) (leftover : List Nat)
  | done (yyresult : Int) (tree : List Nat) (consumed : Nat)
deriving DecidableEq, Repr

/-- Modelled from the spec: the arena allocator's `create() -> handle`
(pool_memory_create, whose body lives outside this core) hands back a fresh
arena handle with its memory allocated. -/
def pool_memory_create (g : GlobalState) : Nat × GlobalState :=
  (g.next_handle, { g with next_handle := g.next_handle + 1, arena_alive := true })

/-- Modelled from the spec: the arena allocator's `destroy(handle, flag)`
(pool_memory_delete, whose body lives outside this core) releases the arena's
memory; it receives the handle by value, so the caller's `pool_memory`
variable is left untouched. -/
def pool_memory_delete (g : GlobalState) (flag : Nat) : GlobalState :=
  { g with arena_alive := false }

/-- `free_parser` from parser.c: release all arena memory. -/
def freeParser (g : GlobalState) : GlobalState :=
  pool_memory_delete g 1

/-- `scanner_init`: point the scanner at the input text (modelled as the token
stream the scanner will produce from it). -/
def scanner_init (str : List Token) (g : GlobalState) : GlobalState :=
  { g with fs := { g.fs with input := str }, scanner_active := true }

/-- `scanner_finish`: finalize the scanner. -/
def scanner_finish (g : GlobalState) : GlobalState :=
  { g with scanner_active := false }

/-- The entry sequence of `rawParser`: create the arena if `pool_memory` is
NULL, clear `parsetree` to NIL, clear the lookahead slot, and initialize the
scanner over the input. -/
def raw_parser_setup (str : List Token) (g : GlobalState) : GlobalState :=
  let g0 :=
    if g.pool_memory = none then
      let c := pool_memory_create g
      { c.2 with pool_memory := some c.1 }
    else g
  let g1 := { g0 with parsetree := NIL, fs := { g0.fs with have_lookahead := false } }
  scanner_init str g1

/-- The token-kind stream `base_yyparse` pulls through `filtered_base_yylex`
during a parse of `str` started from global state `g` (one call beyond the
input length, so the end-of-input kind is included). -/
def engineStream (str : List Token) (g : GlobalState) : List TokKind :=
  (runFilter (raw_parser_setup str g).fs (str.length + 1)).1

/-- `raw_parser` from parser.c, with `base_yyparse` abstracted as a function
`E` of the filtered token stream: arena init-on-first-use, session reset,
scanner init, then either the `longjmp` recovery path (finalize the scanner,
return NIL) or the normal return (finalize the scanner, return NIL on a
nonzero status and the accumulated `parsetree` otherwise). -/
def rawParser (E : List TokKind → EngineResult) (str : List Token) (g : GlobalState) :
    List Nat × GlobalState :=
  let g2 := raw_parser_setup str g
  match E (engineStream str g) with
  | EngineResult.jmp n leftover =>
      let g3 := { g2 with parsetree := leftover, fs := (runFilter g2.fs n).2 }
      (NIL, scanner_finish g3)
  | EngineResult.done yyresult tree n =>
      let g3 := { g2 with parsetree := tree, fs := (runFilter g2.fs n).2 }
      let g4 := scanner_finish g3
      if yyresult ≠ 0 then (NIL, g4) else (g4.parsetree, g4)

/-- An engine run that raises an error through the recovery point after
writing a partial tree. -/
def engineAbortExample : List TokKind → EngineResult :=
  fun _ => EngineResult.jmp 0 [3]

/-- An engine run that returns a nonzero reject status. -/
def engineRejectExample : List TokKind → EngineResult :=
  fun _ => EngineResult.done 1 [5] 0

/-- A fresh process state: no arena yet, empty result, clean filter. -/
def gExample : GlobalState :=
  ⟨none, 0, false, NIL, initFilter [], false⟩

/-- Draining a buffered lookahead token behaves exactly like reading it fresh
from the scanner: the two halves of `filtered_base_yylex` commute with
`pushbackLookahead`. -/
theorem filtered_pushback_eq (s : FilterState) (hs : s.have_lookahead = true) :
    filtered_base_yylex s = filtered_base_yylex (pushbackLookahead s) := by
  unfold filtered_base_yylex getNextToken pushbackLookahead base_yylex
  simp [hs]

/-- C1: whenever a trigger token is immediately followed by one of its
registered continuations (and the lookahead slot is empty), the filter returns
exactly the merged synthetic token given by the merge table, consumes exactly
two scanner tokens, and leaves nothing buffered; the table maps NULLS+FIRST to
NULLS_FIRST, NULLS+LAST to NULLS_LAST, and WITH+CASCADED/LOCAL/CHECK to
WITH_CASCADED/WITH_LOCAL/WITH_CHECK. -/
theorem merge_returns_single_token_two_consumed (s : FilterState) (t1 t2 : Token)
    (rest : List Token) (m : TokKind)
    (hla : s.have_lookahead = false)
    (hin : s.input = t1 :: t2 :: rest)
    (hm : mergeContinuation t1.kind t2.kind = some m) :
    ((filtered_base_yylex s).1 = m
      ∧ (filtered_base_yylex s).2.input = rest
      ∧ (filtered_base_yylex s).2.have_lookahead = false)
    ∧ mergeContinuation TokKind.NULLS_P TokKind.FIRST_P = some TokKind.NULLS_FIRST
    ∧ mergeContinuation TokKind.NULLS_P TokKind.LAST_P = some TokKind.NULLS_LAST
    ∧ mergeContinuation TokKind.WITH TokKind.CASCADED = some TokKind.WITH_CASCADED
    ∧ mergeContinuation TokKind.WITH TokKind.LOCAL = some TokKind.WITH_LOCAL
    ∧ mergeContinuation TokKind.WITH TokKind.CHECK = some TokKind.WITH_CHECK := by
  obtain ⟨k1, v1, l1⟩ := t1
  obtain ⟨k2, v2, l2⟩ := t2
  refine ⟨?_, rfl, rfl, rfl, rfl, rfl⟩
  cases k1 <;> cases k2 <;> simp [mergeContinuation] at hm <;>
    simp [filtered_base_yylex, getNextToken, lookaheadSwitch, base_yylex, hla, hin, ← hm]

/-- C1 witness: the merge theorem applied to the concrete stream NULLS FIRST. -/
theorem merge_returns_single_token_two_consumed_witness :
    ((filtered_base_yylex (initFilter [⟨TokKind.NULLS_P, 1, 10⟩, ⟨TokKind.FIRST_P, 2, 20⟩])).1 =
        TokKind.NULLS_FIRST
      ∧ (filtered_base_yylex
          (initFilter [⟨TokKind.NULLS_P, 1, 10⟩, ⟨TokKind.FIRST_P, 2, 20⟩])).2.input = []
      ∧ (filtered_base_yylex
          (initFilter [⟨TokKind.NULLS_P, 1, 10⟩, ⟨TokKind.FIRST_P, 2, 20⟩])).2.have_lookahead =
        false)
    ∧ mergeContinuation TokKind.NULLS_P TokKind.FIRST_P = some TokKind.NULLS_FIRST
    ∧ mergeContinuation TokKind.NULLS_P TokKind.LAST_P = some TokKind.NULLS_LAST
    ∧ mergeContinuation TokKind.WITH TokKind.CASCADED = some TokKind.WITH_CASCADED
    ∧ mergeContinuation TokKind.WITH TokKind.LOCAL = some TokKind.WITH_LOCAL
    ∧ mergeContinuation TokKind.WITH TokKind.CHECK = some TokKind.WITH_CHECK :=
  merge_returns_single_token_two_consumed
    (initFilter [⟨TokKind.NULLS_P, 1, 10⟩, ⟨TokKind.FIRST_P, 2, 20⟩])
    ⟨TokKind.NULLS_P, 1, 10⟩ ⟨TokKind.FIRST_P, 2, 20⟩ [] TokKind.NULLS_FIRST rfl rfl rfl

/-- C2 counterexample: on the stream NULLS(val 1, loc 10) FIRST(val 2, loc 20)
the filter returns the merged NULLS_FIRST token, but the output globals hold
the continuation token's value and location (2, 20), not the trigger token's
(1, 10): the merge path of `filtered_base_yylex` never restores the saved
`cur_yylval`/`cur_yylloc`. -/
theorem merge_value_location_counterexample :
    (filtered_base_yylex (initFilter [⟨TokKind.NULLS_P, 1, 10⟩, ⟨TokKind.FIRST_P, 2, 20⟩])).1 =
      TokKind.NULLS_FIRST
    ∧ (filtered_base_yylex
        (initFilter [⟨TokKind.NULLS_P, 1, 10⟩, ⟨TokKind.FIRST_P, 2, 20⟩])).2.base_yylval = 2
    ∧ (filtered_base_yylex
        (initFilter [⟨TokKind.NULLS_P, 1, 10⟩, ⟨TokKind.FIRST_P, 2, 20⟩])).2.base_yylloc = 20
    ∧ ¬((filtered_base_yylex
          (initFilter [⟨TokKind.NULLS_P, 1, 10⟩, ⟨TokKind.FIRST_P, 2, 20⟩])).2.base_yylval = 1
        ∧ (filtered_base_yylex
            (initFilter [⟨TokKind.NULLS_P, 1, 10⟩, ⟨TokKind.FIRST_P, 2, 20⟩])).2.base_yylloc =
          10) := by
  decide

/-- C2 (amended): whenever the filter merges a trigger with its continuation,
the returned merged token carries the continuation (second) token's value and
location in `base_yylval`/`base_yylloc`; the trigger token's saved
value/location are restored only on the non-merge path. -/
theorem merge_carries_continuation_value (s : FilterState) (t1 t2 : Token)
    (rest : List Token) (m : TokKind)
    (hla : s.have_lookahead = false)
    (hin : s.input = t1 :: t2 :: rest)
    (hm : mergeContinuation t1.kind t2.kind = some m) :
    (filtered_base_yylex s).2.base_yylval = t2.val
    ∧ (filtered_base_yylex s).2.base_yylloc = t2.loc := by
  obtain ⟨k1, v1, l1⟩ := t1
  obtain ⟨k2, v2, l2⟩ := t2
  cases k1 <;> cases k2 <;> simp [mergeContinuation] at hm <;>
    simp [filtered_base_yylex, getNextToken, lookaheadSwitch, base_yylex, hla, hin]

/-- C2 witness: the amended merge theorem applied to the concrete stream
WITH(4, 40) CHECK(5, 50). -/
theorem merge_carries_continuation_value_witness :
    (filtered_base_yylex (initFilter [⟨TokKind.WITH, 4, 40⟩, ⟨TokKind.CHECK, 5, 50⟩])).2.base_yylval =
      5
    ∧ (filtered_base_yylex
        (initFilter [⟨TokKind.WITH, 4, 40⟩, ⟨TokKind.CHECK, 5, 50⟩])).2.base_yylloc = 50 :=
  merge_carries_continuation_value
    (initFilter [⟨TokKind.WITH, 4, 40⟩, ⟨TokKind.CHECK, 5, 50⟩])
    ⟨TokKind.WITH, 4, 40⟩ ⟨TokKind.CHECK, 5, 50⟩ [] TokKind.WITH_CHECK rfl rfl rfl

/-- C3 counterexample: on the stream WITH(1,10) WITH(2,20) CHECK(3,30) the
first token is a trigger followed by a non-continuation, so the second WITH is
buffered; but the next call does not return the buffered token unchanged — it
treats the buffered WITH as a fresh trigger, reads CHECK, and returns the
merged WITH_CHECK, so the scanner has advanced three tokens (input exhausted),
not two, across the two calls. -/
theorem nonmerge_second_call_counterexample :
    (runFilter (initFilter
        [⟨TokKind.WITH, 1, 10⟩, ⟨TokKind.WITH, 2, 20⟩, ⟨TokKind.CHECK, 3, 30⟩]) 2).1 =
      [TokKind.WITH, TokKind.WITH_CHECK]
    ∧ (runFilter (initFilter
        [⟨TokKind.WITH, 1, 10⟩, ⟨TokKind.WITH, 2, 20⟩, ⟨TokKind.CHECK, 3, 30⟩]) 2).2.input = []
    ∧ ¬((runFilter (initFilter
          [⟨TokKind.WITH, 1, 10⟩, ⟨TokKind.WITH, 2, 20⟩, ⟨TokKind.CHECK, 3, 30⟩]) 2).1 =
        [TokKind.WITH, TokKind.WITH]
        ∧ (runFilter (initFilter
            [⟨TokKind.WITH, 1, 10⟩, ⟨TokKind.WITH, 2, 20⟩, ⟨TokKind.CHECK, 3, 30⟩]) 2).2.input =
          [⟨TokKind.CHECK, 3, 30⟩]) := by
  decide

/-- C3 (amended): when a trigger token is followed by a token that is neither
one of its registered continuations nor itself a trigger, the filter returns
the trigger unmerged with its original value and location restored, buffers
the second token verbatim (kind, value, location) in the lookahead slot, and
the next call returns that buffered token unchanged; across the two calls the
scanner advances by exactly two tokens.  (If the second token is itself a
trigger, the second call instead treats it as a fresh trigger and may read a
third scanner token.) -/
theorem nonmerge_emits_trigger_then_buffered (s : FilterState) (t1 t2 : Token)
    (rest : List Token)
    (hla : s.have_lookahead = false)
    (hin : s.input = t1 :: t2 :: rest)
    (htr : isTrigger t1.kind = true)
    (hm : mergeContinuation t1.kind t2.kind = none)
    (hnt : isTrigger t2.kind = false) :
    (filtered_base_yylex s).1 = t1.kind
    ∧ (filtered_base_yylex s).2.base_yylval = t1.val
    ∧ (filtered_base_yylex s).2.base_yylloc = t1.loc
    ∧ (filtered_base_yylex s).2.have_lookahead = true
    ∧ (filtered_base_yylex s).2.lookahead_token = t2.kind
    ∧ (filtered_base_yylex s).2.lookahead_yylval = t2.val
    ∧ (filtered_base_yylex s).2.lookahead_yylloc = t2.loc
    ∧ (filtered_base_yylex s).2.input = rest
    ∧ (filtered_base_yylex (filtered_base_yylex s).2).1 = t2.kind
    ∧ (filtered_base_yylex (filtered_base_yylex s).2).2.base_yylval = t2.val
    ∧ (filtered_base_yylex (filtered_base_yylex s).2).2.base_yylloc = t2.loc
    ∧ (filtered_base_yylex (filtered_base_yylex s).2).2.input = rest
    ∧ (filtered_base_yylex (filtered_base_yylex s).2).2.have_lookahead = false := by
  obtain ⟨k1, v1, l1⟩ := t1
  obtain ⟨k2, v2, l2⟩ := t2
  cases k1 <;> simp [isTrigger] at htr <;>
    cases k2 <;> simp [mergeContinuation] at hm <;> simp [isTrigger] at hnt <;>
      simp [filtered_base_yylex, getNextToken, lookaheadSwitch, base_yylex, hla, hin]

/-- C3 witness: the amended theorem applied to the concrete stream
NULLS(1,10) CASCADED(2,20) SELECT-like OTHER(3,30). -/
theorem nonmerge_emits_trigger_then_buffered_witness :
    (filtered_base_yylex (initFilter
        [⟨TokKind.NULLS_P, 1, 10⟩, ⟨TokKind.CASCADED, 2, 20⟩, ⟨TokKind.OTHER 7, 3, 30⟩])).1 =
      TokKind.NULLS_P
    ∧ (filtered_base_yylex (initFilter
        [⟨TokKind.NULLS_P, 1, 10⟩, ⟨TokKind.CASCADED, 2, 20⟩,
          ⟨TokKind.OTHER 7, 3, 30⟩])).2.base_yylval = 1
    ∧ (filtered_base_yylex (initFilter
        [⟨TokKind.NULLS_P, 1, 10⟩, ⟨TokKind.CASCADED, 2, 20⟩,
          ⟨TokKind.OTHER 7, 3, 30⟩])).2.base_yylloc = 10
    ∧ (filtered_base_yylex (initFilter
        [⟨TokKind.NULLS_P, 1, 10⟩, ⟨TokKind.CASCADED, 2, 20⟩,
          ⟨TokKind.OTHER 7, 3, 30⟩])).2.have_lookahead = true
    ∧ (filtered_base_yylex (initFilter
        [⟨TokKind.NULLS_P, 1, 10⟩, ⟨TokKind.CASCADED, 2, 20⟩,
          ⟨TokKind.OTHER 7, 3, 30⟩])).2.lookahead_token = TokKind.CASCADED
    ∧ (filtered_base_yylex (initFilter
        [⟨TokKind.NULLS_P, 1, 10⟩, ⟨TokKind.CASCADED, 2, 20⟩,
          ⟨TokKind.OTHER 7, 3, 30⟩])).2.lookahead_yylval = 2
    ∧ (filtered_base_yylex (initFilter
        [⟨TokKind.NULLS_P, 1, 10⟩, ⟨TokKind.CASCADED, 2, 20⟩,
          ⟨TokKind.OTHER 7, 3, 30⟩])).2.lookahead_yylloc = 20
    ∧ (filtered_base_yylex (initFilter
        [⟨TokKind.NULLS_P, 1, 10⟩, ⟨TokKind.CASCADED, 2, 20⟩,
          ⟨TokKind.OTHER 7, 3, 30⟩])).2.input = [⟨TokKind.OTHER 7, 3, 30⟩]
    ∧ (filtered_base_yylex (filtered_base_yylex (initFilter
        [⟨TokKind.NULLS_P, 1, 10⟩, ⟨TokKind.CASCADED, 2, 20⟩,
          ⟨TokKind.OTHER 7, 3, 30⟩])).2).1 = TokKind.CASCADED
    ∧ (filtered_base_yylex (filtered_base_yylex (initFilter
        [⟨TokKind.NULLS_P, 1, 10⟩, ⟨TokKind.CASCADED, 2, 20⟩,
          ⟨TokKind.OTHER 7, 3, 30⟩])).2).2.base_yylval = 2
    ∧ (filtered_base_yylex (filtered_base_yylex (initFilter
        [⟨TokKind.NULLS_P, 1, 10⟩, ⟨TokKind.CASCADED, 2, 20⟩,
          ⟨TokKind.OTHER 7, 3, 30⟩])).2).2.base_yylloc = 20
    ∧ (filtered_base_yylex (filtered_base_yylex (initFilter
        [⟨TokKind.NULLS_P, 1, 10⟩, ⟨TokKind.CASCADED, 2, 20⟩,
          ⟨TokKind.OTHER 7, 3, 30⟩])).2).2.input = [⟨TokKind.OTHER 7, 3, 30⟩]
    ∧ (filtered_base_yylex (filtered_base_yylex (initFilter
        [⟨TokKind.NULLS_P, 1, 10⟩, ⟨TokKind.CASCADED, 2, 20⟩,
          ⟨TokKind.OTHER 7, 3, 30⟩])).2).2.have_lookahead = false :=
  nonmerge_emits_trigger_then_buffered
    (initFilter [⟨TokKind.NULLS_P, 1, 10⟩, ⟨TokKind.CASCADED, 2, 20⟩, ⟨TokKind.OTHER 7, 3, 30⟩])
    ⟨TokKind.NULLS_P, 1, 10⟩ ⟨TokKind.CASCADED, 2, 20⟩ [⟨TokKind.OTHER 7, 3, 30⟩]
    rfl rfl rfl rfl rfl

/-- C4: the lookahead slot never loses a pending token — a call that starts
with a buffered token behaves exactly as if that token were put back in front
of the scanner input with the slot empty (so the drained token is processed as
a fresh trigger candidate, and the slot is drained before anything new can be
buffered); on the stream WITH WITH CHECK the buffered second WITH triggers a
new lookahead and is merged into WITH_CHECK rather than lost or overwritten. -/
theorem lookahead_slot_single_pending :
    (∀ s : FilterState, s.have_lookahead = true →
      filtered_base_yylex s = filtered_base_yylex (pushbackLookahead s))
    ∧ (runFilter (initFilter
        [⟨TokKind.WITH, 6, 60⟩, ⟨TokKind.WITH, 7, 70⟩, ⟨TokKind.CHECK, 8, 80⟩]) 2).1 =
      [TokKind.WITH, TokKind.WITH_CHECK]
    ∧ (runFilter (initFilter
        [⟨TokKind.WITH, 6, 60⟩, ⟨TokKind.WITH, 7, 70⟩, ⟨TokKind.CHECK, 8, 80⟩]) 2).2.input = []
    ∧ (runFilter (initFilter
        [⟨TokKind.WITH, 6, 60⟩, ⟨TokKind.WITH, 7, 70⟩,
          ⟨TokKind.CHECK, 8, 80⟩]) 2).2.have_lookahead = false := by
  exact ⟨fun s hs => filtered_pushback_eq s hs, by decide, by decide, by decide⟩

/-- C4 witness: the pushback equivalence applied to a concrete state whose
slot holds a buffered WITH. -/
theorem lookahead_slot_single_pending_witness :
    filtered_base_yylex
      ⟨[⟨TokKind.CHECK, 8, 80⟩], 7, 70, true, TokKind.WITH, 7, 70⟩ =
    filtered_base_yylex (pushbackLookahead
      ⟨[⟨TokKind.CHECK, 8, 80⟩], 7, 70, true, TokKind.WITH, 7, 70⟩) :=
  lookahead_slot_single_pending.1
    ⟨[⟨TokKind.CHECK, 8, 80⟩], 7, 70, true, TokKind.WITH, 7, 70⟩ rfl

/-- C8: a trigger at the end of the stream is safe — for the stream
NULLS(1,10) EOF(0,20) the filter returns NULLS then EOF, with the end-of-input
token handled as an ordinary non-continuation token and buffered in the
lookahead slot; the same holds when the scanner input ends right after NULLS,
where looking ahead past end-of-input yields the synthetic end-of-input kind,
which is buffered and replayed. -/
theorem trigger_at_end_of_stream_safe :
    (runFilter (initFilter [⟨TokKind.NULLS_P, 1, 10⟩, ⟨TokKind.YYEOF, 0, 20⟩]) 2).1 =
      [TokKind.NULLS_P, TokKind.YYEOF]
    ∧ (filtered_base_yylex
        (initFilter [⟨TokKind.NULLS_P, 1, 10⟩, ⟨TokKind.YYEOF, 0, 20⟩])).2.have_lookahead = true
    ∧ (filtered_base_yylex
        (initFilter [⟨TokKind.NULLS_P, 1, 10⟩, ⟨TokKind.YYEOF, 0, 20⟩])).2.lookahead_token =
      TokKind.YYEOF
    ∧ (filtered_base_yylex
        (initFilter [⟨TokKind.NULLS_P, 1, 10⟩, ⟨TokKind.YYEOF, 0, 20⟩])).1 = TokKind.NULLS_P
    ∧ (runFilter (initFilter [⟨TokKind.NULLS_P, 1, 10⟩]) 2).1 =
      [TokKind.NULLS_P, TokKind.YYEOF]
    ∧ (filtered_base_yylex (initFilter [⟨TokKind.NULLS_P, 1, 10⟩])).2.have_lookahead = true
    ∧ (filtered_base_yylex (initFilter [⟨TokKind.NULLS_P, 1, 10⟩])).2.lookahead_token =
      TokKind.YYEOF := by
  decide

/-- One filter call from a state with an empty slot consumes a nonempty prefix
of the pending tokens: the emitted kind expands to exactly the consumed kinds,
except that looking past the end of input may materialize one synthetic
end-of-input kind; only scanner-producible kinds remain pending. -/
theorem filtered_step_conservation_nolook (s : FilterState)
    (hla : s.have_lookahead = false)
    (h : (s.input.map Token.kind).all scannerKind = true) :
    ∃ k, k ≤ 1
      ∧ expand (filtered_base_yylex s).1
          ++ ((filtered_base_yylex s).2.pending.map Token.kind)
        = s.input.map Token.kind ++ List.replicate k TokKind.YYEOF
      ∧ (((filtered_base_yylex s).2.pending.map Token.kind).all scannerKind = true) := by
  obtain ⟨inp, bv, bl, hl, lt, lv, ll⟩ := s
  simp only at hla h
  subst hla
  rcases inp with _ | ⟨⟨k1, v1, l1⟩, rest⟩
  · exact ⟨1, by omega,
      by simp [filtered_base_yylex, getNextToken, lookaheadSwitch, base_yylex,
        FilterState.pending, expand],
      by simp [filtered_base_yylex, getNextToken, lookaheadSwitch, base_yylex,
        FilterState.pending]⟩
  · simp only [List.map_cons, List.all_cons, Bool.and_eq_true] at h
    cases k1
    case NULLS_FIRST => simp [scannerKind] at h
    case NULLS_LAST => simp [scannerKind] at h
    case WITH_CASCADED => simp [scannerKind] at h
    case WITH_LOCAL => simp [scannerKind] at h
    case WITH_CHECK => simp [scannerKind] at h
    case NULLS_P =>
      rcases rest with _ | ⟨⟨k2, v2, l2⟩, rest2⟩
      · exact ⟨1, by omega,
          by simp [filtered_base_yylex, getNextToken, lookaheadSwitch, base_yylex,
            FilterState.pending, expand],
          by simp [filtered_base_yylex, getNextToken, lookaheadSwitch, base_yylex,
            FilterState.pending, scannerKind]⟩
      · simp only [List.map_cons, List.all_cons, Bool.and_eq_true] at h
        cases k2 <;>
          exact ⟨0, by omega,
            by simp_all [filtered_base_yylex, getNextToken, lookaheadSwitch, base_yylex,
              FilterState.pending, expand, scannerKind],
            by simp_all [filtered_base_yylex, getNextToken, lookaheadSwitch, base_yylex,
              FilterState.pending, scannerKind]⟩
    case WITH =>
      rcases rest with _ | ⟨⟨k2, v2, l2⟩, rest2⟩
      · exact ⟨1, by omega,
          by simp [filtered_base_yylex, getNextToken, lookaheadSwitch, base_yylex,
            FilterState.pending, expand],
          by simp [filtered_base_yylex, getNextToken, lookaheadSwitch, base_yylex,
            FilterState.pending, scannerKind]⟩
      · simp only [List.map_cons, List.all_cons, Bool.and_eq_true] at h
        cases k2 <;>
          exact ⟨0, by omega,
            by simp_all [filtered_base_yylex, getNextToken, lookaheadSwitch, base_yylex,
              FilterState.pending, expand, scannerKind],
            by simp_all [filtered_base_yylex, getNextToken, lookaheadSwitch, base_yylex,
              FilterState.pending, scannerKind]⟩
    all_goals
      exact ⟨0, by omega,
        by simp [filtered_base_yylex, getNextToken, lookaheadSwitch, base_yylex,
          FilterState.pending, expand],
        by simp_all [filtered_base_yylex, getNextToken, lookaheadSwitch, base_yylex,
          FilterState.pending, scannerKind]⟩

/-- One filter call, from any state, consumes a nonempty prefix of the pending
tokens and emits a kind expanding to exactly the consumed kinds, up to one
synthetic end-of-input kind materialized by looking past the end of input. -/
theorem filtered_step_conservation (s : FilterState)
    (h : (s.pending.map Token.kind).all scannerKind = true) :
    ∃ k, k ≤ 1
      ∧ expand (filtered_base_yylex s).1
          ++ ((filtered_base_yylex s).2.pending.map Token.kind)
        = s.pending.map Token.kind ++ List.replicate k TokKind.YYEOF
      ∧ (((filtered_base_yylex s).2.pending.map Token.kind).all scannerKind = true) := by
  cases hla : s.have_lookahead
  · have hp : s.pending = s.input := by simp [FilterState.pending, hla]
    rw [hp] at h ⊢
    exact filtered_step_conservation_nolook s hla h
  · rw [filtered_pushback_eq s hla]
    have hp : s.pending = (pushbackLookahead s).input := by
      simp [FilterState.pending, pushbackLookahead, hla]
    rw [hp] at h ⊢
    exact filtered_step_conservation_nolook (pushbackLookahead s)
      (by simp [pushbackLookahead]) h

/-- Any number of filter calls conserves the pending token kinds: the kinds
delivered so far (each merged kind standing for its two components) followed
by the kinds still pending equal the originally pending kinds plus some
trailing synthetic end-of-input kinds. -/
theorem runFilter_conservation (n : Nat) : ∀ (s : FilterState),
    ((s.pending.map Token.kind).all scannerKind = true) →
    ∃ K, ((runFilter s n).1.flatMap expand)
          ++ ((runFilter s n).2.pending.map Token.kind)
        = s.pending.map Token.kind ++ List.replicate K TokKind.YYEOF
      ∧ (((runFilter s n).2.pending.map Token.kind).all scannerKind = true) := by
  induction n with
  | zero =>
      intro s h
      exact ⟨0, by simp [runFilter], by simpa [runFilter] using h⟩
  | succ n ih =>
      intro s h
      obtain ⟨k, hk, heq, hall⟩ := filtered_step_conservation s h
      obtain ⟨K, hKeq, hKall⟩ := ih (filtered_base_yylex s).2 hall
      refine ⟨k + K, ?_, ?_⟩
      · simp only [runFilter, List.flatMap_cons]
        rw [List.append_assoc, hKeq, ← List.append_assoc, heq, List.append_assoc,
          ← List.replicate_add]
      · simpa [runFilter] using hKall

/-- C5: over any finite scanner stream (of scanner-producible kinds), the
token kinds delivered by repeated filter calls account for every scanner token
exactly once — the delivered kinds, with each merged kind expanded into its
two fused components, followed by the still-pending kinds reproduce the
scanner stream in order (plus trailing synthetic end-of-input kinds), so no
token is dropped or duplicated — and at every point the scanner has been
advanced at most one token beyond what has been delivered to the caller. -/
theorem scanner_token_conservation (ts : List Token) (n : Nat)
    (h : (ts.map Token.kind).all scannerKind = true) :
    ∃ K, ((runFilter (initFilter ts) n).1.flatMap expand)
          ++ ((runFilter (initFilter ts) n).2.pending.map Token.kind)
        = ts.map Token.kind ++ List.replicate K TokKind.YYEOF
      ∧ ts.length - (runFilter (initFilter ts) n).2.input.length
          ≤ ((runFilter (initFilter ts) n).1.flatMap expand).length + 1 := by
  have hp : (initFilter ts).pending = ts := by simp [FilterState.pending, initFilter]
  obtain ⟨K, hKeq, _⟩ := runFilter_conservation n (initFilter ts) (by rw [hp]; exact h)
  rw [hp] at hKeq
  refine ⟨K, hKeq, ?_⟩
  have hlen := congrArg List.length hKeq
  simp only [List.length_append, List.length_map, List.length_replicate] at hlen
  have hpl : ((runFilter (initFilter ts) n).2.pending).length
      ≤ (runFilter (initFilter ts) n).2.input.length + 1 := by
    unfold FilterState.pending
    cases (runFilter (initFilter ts) n).2.have_lookahead <;> simp
  omega

/-- C5 witness: conservation applied to the concrete stream WITH OTHER over
two filter calls. -/
theorem scanner_token_conservation_witness :
    ∃ K, ((runFilter (initFilter
              [(⟨TokKind.WITH, 1, 10⟩ : Token), ⟨TokKind.OTHER 5, 2, 20⟩]) 2).1.flatMap expand)
          ++ ((runFilter (initFilter
              [(⟨TokKind.WITH, 1, 10⟩ : Token), ⟨TokKind.OTHER 5, 2, 20⟩]) 2).2.pending.map
            Token.kind)
        = [(⟨TokKind.WITH, 1, 10⟩ : Token), ⟨TokKind.OTHER 5, 2, 20⟩].map Token.kind
          ++ List.replicate K TokKind.YYEOF
      ∧ [(⟨TokKind.WITH, 1, 10⟩ : Token), ⟨TokKind.OTHER 5, 2, 20⟩].length
          - (runFilter (initFilter
              [(⟨TokKind.WITH, 1, 10⟩ : Token), ⟨TokKind.OTHER 5, 2, 20⟩]) 2).2.input.length
        ≤ ((runFilter (initFilter
              [(⟨TokKind.WITH, 1, 10⟩ : Token), ⟨TokKind.OTHER 5, 2, 20⟩]) 2).1.flatMap
            expand).length + 1 :=
  scanner_token_conservation [⟨TokKind.WITH, 1, 10⟩, ⟨TokKind.OTHER 5, 2, 20⟩] 2 (by decide)

/-- One filter call from two kind-aligned states with empty slots returns the
same token kind and keeps the states kind-aligned: the filter's control flow
never reads the value/location payloads. -/
theorem step_kind_aligned_nolook (s1 s2 : FilterState)
    (h1 : s1.have_lookahead = false) (h2 : s2.have_lookahead = false)
    (hin : s1.input.map Token.kind = s2.input.map Token.kind) :
    (filtered_base_yylex s1).1 = (filtered_base_yylex s2).1
    ∧ KindAligned (filtered_base_yylex s1).2 (filtered_base_yylex s2).2 := by
  obtain ⟨inp1, bv1, bl1, hl1, lt1, lv1, ll1⟩ := s1
  obtain ⟨inp2, bv2, bl2, hl2, lt2, lv2, ll2⟩ := s2
  simp only at h1 h2 hin
  subst h1 h2
  rcases inp1 with _ | ⟨⟨k1, v1, l1⟩, rest1⟩ <;> rcases inp2 with _ | ⟨⟨k2, v2, l2⟩, rest2⟩
  · exact ⟨rfl,
      by simp [KindAligned, filtered_base_yylex, getNextToken, base_yylex, lookaheadSwitch]⟩
  · simp at hin
  · simp at hin
  · simp only [List.map_cons, List.cons.injEq] at hin
    obtain ⟨hk, hrest⟩ := hin
    subst hk
    cases k1
    case NULLS_P =>
      rcases rest1 with _ | ⟨⟨m1, w1, x1⟩, rr1⟩ <;> rcases rest2 with _ | ⟨⟨m2, w2, x2⟩, rr2⟩
      · exact ⟨by simp [filtered_base_yylex, getNextToken, lookaheadSwitch, base_yylex],
          by simp [KindAligned, filtered_base_yylex, getNextToken, lookaheadSwitch, base_yylex]⟩
      · simp at hrest
      · simp at hrest
      · simp only [List.map_cons, List.cons.injEq] at hrest
        obtain ⟨hm, hrr⟩ := hrest
        subst hm
        cases m1 <;>
          exact ⟨by simp [filtered_base_yylex, getNextToken, lookaheadSwitch, base_yylex],
            by simp [KindAligned, filtered_base_yylex, getNextToken, lookaheadSwitch,
              base_yylex, hrr]⟩
    case WITH =>
      rcases rest1 with _ | ⟨⟨m1, w1, x1⟩, rr1⟩ <;> rcases rest2 with _ | ⟨⟨m2, w2, x2⟩, rr2⟩
      · exact ⟨by simp [filtered_base_yylex, getNextToken, lookaheadSwitch, base_yylex],
          by simp [KindAligned, filtered_base_yylex, getNextToken, lookaheadSwitch, base_yylex]⟩
      · simp at hrest
      · simp at hrest
      · simp only [List.map_cons, List.cons.injEq] at hrest
        obtain ⟨hm, hrr⟩ := hrest
        subst hm
        cases m1 <;>
          exact ⟨by simp [filtered_base_yylex, getNextToken, lookaheadSwitch, base_yylex],
            by simp [KindAligned, filtered_base_yylex, getNextToken, lookaheadSwitch,
              base_yylex, hrr]⟩
    all_goals
      exact ⟨by simp [filtered_base_yylex, getNextToken, lookaheadSwitch, base_yylex],
        by simp [KindAligned, filtered_base_yylex, getNextToken, lookaheadSwitch,
          base_yylex, hrest]⟩

/-- One filter call preserves kind-alignment and returns the same kind. -/
theorem step_kind_aligned (s1 s2 : FilterState) (h : KindAligned s1 s2) :
    (filtered_base_yylex s1).1 = (filtered_base_yylex s2).1
    ∧ KindAligned (filtered_base_yylex s1).2 (filtered_base_yylex s2).2 := by
  obtain ⟨hin, hla, hslot⟩ := h
  cases hb : s1.have_lookahead
  · exact step_kind_aligned_nolook s1 s2 hb (by rw [← hla, hb]) hin
  · have hb2 : s2.have_lookahead = true := by rw [← hla, hb]
    rw [filtered_pushback_eq s1 hb, filtered_pushback_eq s2 hb2]
    exact step_kind_aligned_nolook (pushbackLookahead s1) (pushbackLookahead s2)
      (by simp [pushbackLookahead]) (by simp [pushbackLookahead])
      (by simp [pushbackLookahead, hin, hslot hb])

/-- Kind-aligned states produce identical token-kind streams under any number
of filter calls. -/
theorem runFilter_kind_aligned (n : Nat) : ∀ (s1 s2 : FilterState), KindAligned s1 s2 →
    (runFilter s1 n).1 = (runFilter s2 n).1 := by
  induction n with
  | zero => intro s1 s2 _; simp [runFilter]
  | succ n ih =>
      intro s1 s2 h
      obtain ⟨hh, ht⟩ := step_kind_aligned s1 s2 h
      simp only [runFilter]
      rw [hh, ih _ _ ht]

/-- The state `raw_parser_setup` produces: result cleared to NIL, lookahead
slot cleared, scanner over the input, arena created exactly when the handle
was NULL. -/
theorem raw_parser_setup_fields (str : List Token) (g : GlobalState) :
    (raw_parser_setup str g).parsetree = NIL
    ∧ (raw_parser_setup str g).fs.have_lookahead = false
    ∧ (raw_parser_setup str g).fs.input = str
    ∧ (raw_parser_setup str g).pool_memory =
        (if g.pool_memory = none then some g.next_handle else g.pool_memory)
    ∧ (raw_parser_setup str g).next_handle =
        (if g.pool_memory = none then g.next_handle + 1 else g.next_handle)
    ∧ (raw_parser_setup str g).arena_alive =
        (if g.pool_memory = none then true else g.arena_alive)
    ∧ (raw_parser_setup str g).scanner_active = true := by
  unfold raw_parser_setup pool_memory_create scanner_init
  split <;> simp

/-- `rawParser` leaves the arena fields exactly as its entry sequence set
them: no exit path touches the arena. -/
theorem raw_parser_pool_fields (E : List TokKind → EngineResult) (str : List Token)
    (g : GlobalState) :
    (rawParser E str g).2.pool_memory = (raw_parser_setup str g).pool_memory
    ∧ (rawParser E str g).2.next_handle = (raw_parser_setup str g).next_handle
    ∧ (rawParser E str g).2.arena_alive = (raw_parser_setup str g).arena_alive := by
  unfold rawParser
  rcases hE : E (engineStream str g) with ⟨n1, p1⟩ | ⟨c1, t1, n1⟩
  · simp [scanner_finish]
  · simp [scanner_finish, apply_ite Prod.snd]

/-- The token-kind stream the engine sees depends only on the input text, not
on any state left from earlier parses: the session reset clears the slot. -/
theorem engineStream_eq (str : List Token) (g1 g2 : GlobalState) :
    engineStream str g1 = engineStream str g2 := by
  unfold engineStream
  apply runFilter_kind_aligned
  refine ⟨?_, ?_, ?_⟩
  · rw [(raw_parser_setup_fields str g1).2.2.1, (raw_parser_setup_fields str g2).2.2.1]
  · rw [(raw_parser_setup_fields str g1).2.1, (raw_parser_setup_fields str g2).2.1]
  · intro hcontra
    rw [(raw_parser_setup_fields str g1).2.1] at hcontra
    exact absurd hcontra (by simp)

/-- The list `rawParser` returns depends only on the engine and the input
text, never on the entry global state. -/
theorem raw_parser_result_only_input (E : List TokKind → EngineResult) (str : List Token)
    (g1 g2 : GlobalState) :
    (rawParser E str g1).1 = (rawParser E str g2).1 := by
  unfold rawParser
  rw [engineStream_eq str g1 g2]
  rcases hE : E (engineStream str g2) with ⟨n1, p1⟩ | ⟨c1, t1, n1⟩
  · rfl
  · simp [scanner_finish, apply_ite Prod.fst]

/-- C6: all three failure modes of a parse — a scanner error or grammar error
escaping through the `longjmp` recovery point, and an explicit nonzero return
from `base_yyparse` — collapse into the same observable outcome: the scanner
is finalized (on every path) and the empty list NIL is returned, never a
partial parse tree (even when the recovery path found a partial tree written
into `parsetree`). -/
theorem raw_parser_failure_collapse (E : List TokKind → EngineResult) (str : List Token)
    (g : GlobalState) :
    (rawParser E str g).2.scanner_active = false
    ∧ (∀ (n : Nat) (leftover : List Nat),
        E (engineStream str g) = EngineResult.jmp n leftover → (rawParser E str g).1 = NIL)
    ∧ (∀ (c : Int) (tree : List Nat) (n : Nat),
        E (engineStream str g) = EngineResult.done c tree n → c ≠ 0 →
          (rawParser E str g).1 = NIL) := by
  refine ⟨?_, ?_, ?_⟩
  · unfold rawParser
    rcases hE : E (engineStream str g) with ⟨n1, p1⟩ | ⟨c1, t1, n1⟩
    · simp [scanner_finish]
    · simp [scanner_finish, apply_ite Prod.snd]
  · intro n p hE
    unfold rawParser
    rw [hE]
  · intro c t n hE hc
    unfold rawParser
    rw [hE]
    simp [hc]

/-- C6 witness: the collapse theorem applied to an engine that raises through
the recovery point with a partial tree, and to one that returns status 1. -/
theorem raw_parser_failure_collapse_witness :
    ((rawParser engineAbortExample [] gExample).2.scanner_active = false
      ∧ (rawParser engineAbortExample [] gExample).1 = NIL)
    ∧ (rawParser engineRejectExample [] gExample).1 = NIL :=
  ⟨⟨(raw_parser_failure_collapse engineAbortExample [] gExample).1,
      (raw_parser_failure_collapse engineAbortExample [] gExample).2.1 0 [3] rfl⟩,
    (raw_parser_failure_collapse engineRejectExample [] gExample).2.2 1 [5] 0 rfl (by decide)⟩

/-- C7: `rawParser` resets session state at entry — after the entry sequence
the shared parse-tree result is NIL and the lookahead slot is empty — and
consequently the result of a second `rawParser` call does not depend on any
parse-tree or lookahead state left behind by a first call, whatever that first
call was (including a failed one): the second call returns the same list no
matter which engine and input produced the intervening state. -/
theorem raw_parser_session_reset_independent :
    (∀ (str : List Token) (g : GlobalState),
      (raw_parser_setup str g).parsetree = NIL
      ∧ (raw_parser_setup str g).fs.have_lookahead = false)
    ∧ (∀ (E1 E1' : List TokKind → EngineResult) (str1 str1' : List Token)
        (E2 : List TokKind → EngineResult) (str2 : List Token) (g : GlobalState),
        (rawParser E2 str2 (rawParser E1 str1 g).2).1 =
          (rawParser E2 str2 (rawParser E1' str1' g).2).1) :=
  ⟨fun str g => ⟨(raw_parser_setup_fields str g).1, (raw_parser_setup_fields str g).2.1⟩,
    fun _ _ _ _ E2 str2 _ => raw_parser_result_only_input E2 str2 _ _⟩

/-- C9: `rawParser` creates the process-wide arena only when `pool_memory` is
NULL, never releases it on any exit path (the arena-alive flag is exactly what
it was at entry, or true on first creation), and a subsequent `rawParser`
call reuses the same arena handle. -/
theorem raw_parser_arena_create_once (E : List TokKind → EngineResult) (str : List Token)
    (g : GlobalState) :
    ((rawParser E str g).2.pool_memory =
        if g.pool_memory = none then some g.next_handle else g.pool_memory)
    ∧ ((rawParser E str g).2.arena_alive =
        if g.pool_memory = none then true else g.arena_alive)
    ∧ (∀ (E2 : List TokKind → EngineResult) (str2 : List Token),
        (rawParser E2 str2 (rawParser E str g).2).2.pool_memory =
          (rawParser E str g).2.pool_memory) := by
  have h1 := raw_parser_pool_fields E str g
  have h2 := raw_parser_setup_fields str g
  refine ⟨by rw [h1.1, h2.2.2.2.1], by rw [h1.2.2, h2.2.2.2.2.2.1], ?_⟩
  intro E2 str2
  have h3 := raw_parser_pool_fields E2 str2 (rawParser E str g).2
  have h4 := raw_parser_setup_fields str2 (rawParser E str g).2
  rw [h3.1, h4.2.2.2.1]
  have hsome : (rawParser E str g).2.pool_memory ≠ none := by
    rw [h1.1, h2.2.2.2.1]
    split <;> simp_all
  simp [hsome]

/-- C10: `freeParser` releases the arena's memory but leaves the process-wide
`pool_memory` handle variable unchanged (not reset to NULL), so a `rawParser`
call made after `freeParser` observes a non-NULL handle and does not
re-create the arena: the handle is unchanged and the arena memory stays
released. -/
theorem free_parser_leaves_handle (g : GlobalState) (h : Nat)
    (E : List TokKind → EngineResult) (str : List Token)
    (hp : g.pool_memory = some h) :
    (freeParser g).pool_memory = some h
    ∧ (freeParser g).arena_alive = false
    ∧ (rawParser E str (freeParser g)).2.pool_memory = some h
    ∧ (rawParser E str (freeParser g)).2.arena_alive = false := by
  have hfp : (freeParser g).pool_memory = some h := by
    simpa [freeParser, pool_memory_delete] using hp
  have hfa : (freeParser g).arena_alive = false := by
    simp [freeParser, pool_memory_delete]
  have h1 := raw_parser_pool_fields E str (freeParser g)
  have h2 := raw_parser_setup_fields str (freeParser g)
  refine ⟨hfp, hfa, ?_, ?_⟩
  · rw [h1.1, h2.2.2.2.1, hfp]
    simp
  · rw [h1.2.2, h2.2.2.2.2.2.1, hfp, hfa]
    simp

/-- C10 witness: the theorem applied to a state holding arena handle 0. -/
theorem free_parser_leaves_handle_witness :
    (freeParser ⟨some 0, 1, true, NIL, initFilter [], false⟩).pool_memory = some 0
    ∧ (freeParser ⟨some 0, 1, true, NIL, initFilter [], false⟩).arena_alive = false
    ∧ (rawParser engineRejectExample []
        (freeParser ⟨some 0, 1, true, NIL, initFilter [], false⟩)).2.pool_memory = some 0
    ∧ (rawParser engineRejectExample []
        (freeParser ⟨some 0, 1, true, NIL, initFilter [], false⟩)).2.arena_alive = false :=
  free_parser_leaves_handle ⟨some 0, 1, true, NIL, initFilter [], false⟩ 0
    engineRejectExample [] rfl
